import Mathlib

/-
Verification of the exercise-planner calculator (src/exercise_planner.py).

The program is a single-screen PyQt form whose only computation is
`Planner.calculate`: it parses six text fields, validates weight and
weight-loss goal, and fills a table of per-activity exercise durations plus
a summary line (total kcal target, daily deficit, BMR, hydration, gender).

Embedding choices:
  * Python floats are modelled by `PFloat`: an exact rational together with
    the special values +inf, -inf and NaN.  Every arithmetic operation the
    program performs (`*`, `/`, `+`, `-`, `<=`, `math.isfinite`, `round`)
    is translated with Python's float semantics on these constructors.
    Rounding error of binary floats is idealised away (the claims are about
    the exact formulas, which hold in the idealised model on both sides).
  * `float(text)` / `int(text)` parsing is abstracted into the parse result:
    an input field is an `Option` value, `none` meaning the text was empty
    or unparseable (either raises, and the program treats both the same way
    in every field).
  * The Qt table and the note label are modelled by `DisplayState`; the
    GUI writes of `calculate` become a pure state transformer
    `applyCalculate`, and the values it would render are collected in
    `CalculationResult`.
-/

/-- Idealised Python float: an exact rational, +inf, -inf, or NaN. -/
inductive PFloat where
  | finite : ℚ → PFloat
  | inf : PFloat
  | ninf : PFloat
  | nan : PFloat
deriving DecidableEq, Repr

namespace PFloat

/-- Python float multiplication on the idealised model. -/
def mul : PFloat → PFloat → PFloat
  | nan, _ => nan
  | _, nan => nan
  | finite x, finite y => finite (x * y)
  | finite x, inf => if 0 < x then inf else if x < 0 then ninf else nan
  | inf, finite y => if 0 < y then inf else if y < 0 then ninf else nan
  | finite x, ninf => if 0 < x then ninf else if x < 0 then inf else nan
  | ninf, finite y => if 0 < y then ninf else if y < 0 then inf else nan
  | inf, inf => inf
  | inf, ninf => ninf
  | ninf, inf => ninf
  | ninf, ninf => inf

/-- Python float division.  Dividing by a (float) zero raises
`ZeroDivisionError` in Python; the program never does it (all its
denominators are the positive constants 200.0 and 60.0, a days count
forced to be at least 1, or a divisor guarded to be strictly positive),
so that case is mapped to the junk value `nan` here. -/
def div : PFloat → PFloat → PFloat
  | nan, _ => nan
  | _, nan => nan
  | finite x, finite y => if y = 0 then nan else finite (x / y)
  | finite _, inf => finite 0
  | finite _, ninf => finite 0
  | inf, finite y => if y = 0 then nan else if 0 < y then inf else ninf
  | ninf, finite y => if y = 0 then nan else if 0 < y then ninf else inf
  | inf, inf => nan
  | inf, ninf => nan
  | ninf, inf => nan
  | ninf, ninf => nan

/-- Python float addition. -/
def add : PFloat → PFloat → PFloat
  | nan, _ => nan
  | _, nan => nan
  | finite x, finite y => finite (x + y)
  | finite _, inf => inf
  | inf, finite _ => inf
  | finite _, ninf => ninf
  | ninf, finite _ => ninf
  | inf, inf => inf
  | ninf, ninf => ninf
  | inf, ninf => nan
  | ninf, inf => nan

/-- Python float subtraction. -/
def sub : PFloat → PFloat → PFloat
  | nan, _ => nan
  | _, nan => nan
  | finite x, finite y => finite (x - y)
  | finite _, inf => ninf
  | inf, finite _ => inf
  | finite _, ninf => inf
  | ninf, finite _ => ninf
  | inf, inf => nan
  | ninf, ninf => nan
  | inf, ninf => inf
  | ninf, inf => ninf

/-- Python `<=` on floats: any comparison with NaN is false. -/
def ble : PFloat → PFloat → Bool
  | nan, _ => false
  | _, nan => false
  | finite x, finite y => decide (x ≤ y)
  | finite _, inf => true
  | inf, finite _ => false
  | ninf, finite _ => true
  | finite _, ninf => false
  | inf, inf => true
  | ninf, ninf => true
  | ninf, inf => true
  | inf, ninf => false

/-- `math.isfinite`. -/
def isFinite : PFloat → Bool
  | finite _ => true
  | _ => false

/-- Promotion of a Python int into a float expression. -/
def ofInt (n : ℤ) : PFloat := finite (n : ℚ)

instance : Mul PFloat := ⟨mul⟩
instance : Div PFloat := ⟨div⟩
instance : Add PFloat := ⟨add⟩
instance : Sub PFloat := ⟨sub⟩

@[simp] theorem finite_mul (a b : ℚ) :
    (finite a) * (finite b) = finite (a * b) := rfl

@[simp] theorem finite_add (a b : ℚ) :
    (finite a) + (finite b) = finite (a + b) := rfl

@[simp] theorem finite_sub (a b : ℚ) :
    (finite a) - (finite b) = finite (a - b) := rfl

@[simp] theorem finite_div (a b : ℚ) :
    (finite a) / (finite b) = if b = 0 then nan else finite (a / b) := rfl

@[simp] theorem nan_mul (b : PFloat) : nan * b = nan := by
  cases b <;> rfl

@[simp] theorem mul_nan (a : PFloat) : a * nan = nan := by
  cases a <;> rfl

@[simp] theorem nan_div (b : PFloat) : nan / b = nan := by
  cases b <;> rfl

@[simp] theorem inf_div_finite (b : ℚ) :
    inf / (finite b) = if b = 0 then nan else if 0 < b then inf else ninf := rfl

@[simp] theorem finite_ble_finite (a b : ℚ) :
    ble (finite a) (finite b) = decide (a ≤ b) := rfl

@[simp] theorem nan_ble (b : PFloat) : ble nan b = false := by
  cases b <;> rfl

@[simp] theorem isFinite_finite (a : ℚ) : isFinite (finite a) = true := rfl

@[simp] theorem isFinite_inf : isFinite inf = false := rfl

@[simp] theorem isFinite_nan : isFinite nan = false := rfl

end PFloat

/-- Python `round` with ties to even on an exact rational (`round(q)` for a
float whose value is exactly `q`). -/
def rndHalfEven (q : ℚ) : ℤ :=
  if q - ⌊q⌋ < 1 / 2 then ⌊q⌋
  else if 1 / 2 < q - ⌊q⌋ then ⌊q⌋ + 1
  else if ⌊q⌋ % 2 = 0 then ⌊q⌋ else ⌊q⌋ + 1

/-- Python `round` on a float.  Python raises `OverflowError` on ±inf and
`ValueError` on NaN; the program only rounds `total_kcal`, which is finite
whenever a result is produced, so those cases map to the junk value 0. -/
def PFloat.pyRound : PFloat → ℤ
  | PFloat.finite q => rndHalfEven q
  | _ => 0

/-- The gender selection: the combo box offers exactly the three labels
"男" (male), "女" (female), "其他" (other). -/
inductive Gender where
  | male : Gender
  | female : Gender
  | other : Gender
deriving DecidableEq, Repr

/-- The static MET catalog, in insertion order of the Python dict
(`METS` in the source): walking, jogging, swimming, jump-rope. -/
def METS : List (String × PFloat) :=
  [("散步", PFloat.finite 3.5),
   ("慢跑", PFloat.finite 7.0),
   ("游泳", PFloat.finite 8.0),
   ("跳繩", PFloat.finite 12.0)]

/-- `kcal_per_minute(met, weight_kg) = met * 3.5 * weight_kg / 200.0`. -/
def kcal_per_minute (met weight_kg : PFloat) : PFloat :=
  met * PFloat.finite 3.5 * weight_kg / PFloat.finite 200.0

/-- The raw form input, one field per widget; a numeric field is `none`
when its text is empty or does not parse (`float`/`int` raises). -/
structure RawInput where
  weight : Option PFloat
  loss : Option PFloat
  height : Option PFloat
  age : Option ℤ
  days : Option ℤ
  gender : Gender
deriving DecidableEq, Repr

/-- Height after default substitution: empty or unparseable text gives 0.0. -/
def parsedHeight (inp : RawInput) : PFloat := inp.height.getD (PFloat.finite 0)

/-- Age after default substitution: empty or unparseable text gives 0. -/
def parsedAge (inp : RawInput) : ℤ := inp.age.getD 0

/-- Days after default substitution: empty, unparseable, or ≤ 0 gives 30. -/
def parsedDays (inp : RawInput) : ℤ :=
  match inp.days with
  | some d => if d ≤ 0 then 30 else d
  | none => 30

/-- The Mifflin-St Jeor branch of `calculate`:
`10.0 * weight + 6.25 * height - 5.0 * age + 5.0` for 男 (male),
the same minus 161.0 instead of plus 5.0 for 女 (female), and the
offset-free formula otherwise. -/
def bmrFor (gender : Gender) (weight height : PFloat) (age : ℤ) : PFloat :=
  match gender with
  | Gender.male =>
      PFloat.finite 10.0 * weight + PFloat.finite 6.25 * height
        - PFloat.finite 5.0 * PFloat.ofInt age + PFloat.finite 5.0
  | Gender.female =>
      PFloat.finite 10.0 * weight + PFloat.finite 6.25 * height
        - PFloat.finite 5.0 * PFloat.ofInt age - PFloat.finite 161.0
  | Gender.other =>
      PFloat.finite 10.0 * weight + PFloat.finite 6.25 * height
        - PFloat.finite 5.0 * PFloat.ofInt age

/-- One table row: the loop body over a catalog entry in `calculate`. -/
structure ActivityRow where
  name : String
  minutesNeeded : PFloat
  hoursTotal : PFloat
  dailyAverageMinutes : PFloat
  waterMl : ℤ
deriving DecidableEq, Repr

/-- The loop body of `calculate` for one catalog entry. -/
def mkRow (totalKcal weight : PFloat) (days : ℤ) (entry : String × PFloat) :
    ActivityRow :=
  let kcalMin := kcal_per_minute entry.2 weight
  let minutesNeeded :=
    if !kcalMin.isFinite || kcalMin.ble (PFloat.finite 0) then PFloat.inf
    else totalKcal / kcalMin
  let hoursTotal := minutesNeeded / PFloat.finite 60.0
  let dailyAvg := minutesNeeded / PFloat.ofInt days
  let waterMl := (totalKcal).pyRound
  { name := entry.1
    minutesNeeded := minutesNeeded
    hoursTotal := hoursTotal
    dailyAverageMinutes := dailyAvg
    waterMl := waterMl }

/-- Everything a successful run of `calculate` renders: the table rows and
the values interpolated into the summary line. -/
structure CalculationResult where
  totalKcal : PFloat
  bmr : PFloat
  dailyDeficit : PFloat
  hydrationMl : ℤ
  rows : List ActivityRow
  gender : Gender
  targetDays : ℤ
deriving DecidableEq, Repr

/-- `Planner.calculate`, as a pure function from the parsed form fields to
either an invalid-input message (the argument of `QMessageBox.warning`
before the early `return`) or the rendered values. -/
def calculate (inp : RawInput) : Except String CalculationResult :=
  match inp.weight, inp.loss with
  | some weight, some loss =>
    let height := parsedHeight inp
    let age := parsedAge inp
    let days := parsedDays inp
    if weight.ble (PFloat.finite 0) || loss.ble (PFloat.finite 0) then
      Except.error ("體重與減重公斤數必須大於 0。")
    else
      let totalKcal := loss * PFloat.finite 7700.0
      let bmr := bmrFor inp.gender weight height age
      let rows := METS.map (mkRow totalKcal weight days)
      let dailyDeficit :=
        if 0 < days then totalKcal / PFloat.ofInt days else totalKcal
      Except.ok
        { totalKcal := totalKcal
          bmr := bmr
          dailyDeficit := dailyDeficit
          hydrationMl := totalKcal.pyRound
          rows := rows
          gender := inp.gender
          targetDays := days }
  | _, _ => Except.error ("請輸入有效的體重與想要減重公斤數。")

/-- What the user sees: the table contents and the note label (initially a
static hint, `none` here; after a successful run, the summary values). -/
structure Summary where
  totalKcal : PFloat
  dailyDeficit : PFloat
  bmr : PFloat
  hydrationMl : ℤ
  gender : Gender
deriving DecidableEq, Repr

/-- The summary line rendered by a successful `calculate`
(`self.note_label.setText(...)`); its hydration figure is
`round(total_kcal)` recomputed at that call site. -/
def summaryOf (r : CalculationResult) : Summary :=
  { totalKcal := r.totalKcal
    dailyDeficit := r.dailyDeficit
    bmr := r.bmr
    hydrationMl := r.totalKcal.pyRound
    gender := r.gender }

/-- The display state `calculate` mutates: the table and the note label. -/
structure DisplayState where
  tableRows : List ActivityRow
  noteSummary : Option Summary
deriving DecidableEq, Repr

/-- The effect of one click of the 計算 button on the display: on invalid
input the method returns before touching the table or the label; on success
it clears the table, inserts the new rows, and rewrites the note. -/
def applyCalculate (st : DisplayState) (inp : RawInput) : DisplayState :=
  match calculate inp with
  | Except.error _ => st
  | Except.ok r => { tableRows := r.rows, noteSummary := some (summaryOf r) }

/- ## Helper lemmas -/

theorem parsedDays_pos (inp : RawInput) : 0 < parsedDays inp := by
  unfold parsedDays
  cases h : inp.days with
  | none => norm_num
  | some d =>
    dsimp only
    split <;> omega

theorem kcal_per_minute_finite (met w : ℚ) :
    kcal_per_minute (PFloat.finite met) (PFloat.finite w) =
      PFloat.finite (met * 3.5 * w / 200) := by
  unfold kcal_per_minute
  norm_num

theorem kpm_pos {met w : ℚ} (hm : 0 < met) (hw : 0 < w) :
    0 < met * 3.5 * w / 200 := by
  have h1 : 0 < met * 3.5 * w := by nlinarith
  exact div_pos h1 (by norm_num)

theorem mkRow_finite (t w : ℚ) (days : ℤ) (name : String) (met : ℚ)
    (hm : 0 < met) (hw : 0 < w) (hd : 0 < days) :
    mkRow (PFloat.finite t) (PFloat.finite w) days (name, PFloat.finite met) =
      { name := name
        minutesNeeded := PFloat.finite (t / (met * 3.5 * w / 200))
        hoursTotal := PFloat.finite (t / (met * 3.5 * w / 200) / 60)
        dailyAverageMinutes :=
          PFloat.finite (t / (met * 3.5 * w / 200) / (days : ℚ))
        waterMl := rndHalfEven t } := by
  have hkpm := kpm_pos hm hw
  have hne : met * 3.5 * w / 200 ≠ 0 := ne_of_gt hkpm
  have hdq : (days : ℚ) ≠ 0 := by
    exact_mod_cast Int.ne_of_gt hd
  unfold mkRow
  rw [kcal_per_minute_finite]
  simp [PFloat.ofInt, hne, hdq, not_le.mpr hkpm, PFloat.pyRound]
  norm_num

theorem mkRow_name (t w : PFloat) (d : ℤ) (e : String × PFloat) :
    (mkRow t w d e).name = e.1 := rfl

theorem calculate_valid (inp : RawInput) (w l : ℚ)
    (hw : inp.weight = some (PFloat.finite w))
    (hl : inp.loss = some (PFloat.finite l))
    (h0w : 0 < w) (h0l : 0 < l) :
    calculate inp = Except.ok
      { totalKcal := PFloat.finite (l * 7700)
        bmr := bmrFor inp.gender (PFloat.finite w) (parsedHeight inp)
          (parsedAge inp)
        dailyDeficit := PFloat.finite (l * 7700 / (parsedDays inp : ℚ))
        hydrationMl := rndHalfEven (l * 7700)
        rows := METS.map (mkRow (PFloat.finite (l * 7700)) (PFloat.finite w)
          (parsedDays inp))
        gender := inp.gender
        targetDays := parsedDays inp } := by
  have hdp := parsedDays_pos inp
  have hdq : ((parsedDays inp : ℚ)) ≠ 0 := by
    exact_mod_cast Int.ne_of_gt hdp
  unfold calculate
  rw [hw, hl]
  simp [not_le.mpr h0w, not_le.mpr h0l, hdp, PFloat.ofInt, hdq, PFloat.pyRound]
  norm_num

/- ## Claim theorems -/

/-- C1: for every valid input (weight > 0, weight-loss goal > 0; the days
count after substitution is always positive) and every activity in the
fixed catalog, the computed results satisfy totalKcalTarget =
weightLossGoalKg * 7700, minutesNeeded = totalKcalTarget /
(met * 3.5 * weightKg / 200) (the per-minute energy cost being finite and
strictly positive here, the infinity branch of the guard does not fire),
hoursTotal = minutesNeeded / 60, and dailyAverageMinutes = minutesNeeded /
targetDays. -/
theorem c1_result_formulas (inp : RawInput) (w l : ℚ)
    (hw : inp.weight = some (PFloat.finite w))
    (hl : inp.loss = some (PFloat.finite l))
    (h0w : 0 < w) (h0l : 0 < l) :
    ∃ r, calculate inp = Except.ok r ∧
      r.totalKcal = PFloat.finite (l * 7700) ∧
      r.targetDays = parsedDays inp ∧ 0 < r.targetDays ∧
      ∀ row ∈ r.rows, ∃ met : ℚ, 0 < met ∧
        (row.name, PFloat.finite met) ∈ METS ∧
        0 < met * 3.5 * w / 200 ∧
        row.minutesNeeded = PFloat.finite (l * 7700 / (met * 3.5 * w / 200)) ∧
        row.hoursTotal =
          PFloat.finite (l * 7700 / (met * 3.5 * w / 200) / 60) ∧
        row.dailyAverageMinutes =
          PFloat.finite (l * 7700 / (met * 3.5 * w / 200) /
            (parsedDays inp : ℚ)) := by
  have hdp := parsedDays_pos inp
  refine ⟨_, calculate_valid inp w l hw hl h0w h0l, rfl, rfl, hdp, ?_⟩
  intro row hrow
  simp only [METS, List.map_cons, List.map_nil, List.mem_cons,
    List.not_mem_nil, or_false] at hrow
  rcases hrow with h | h | h | h <;> subst h
  · refine ⟨3.5, by norm_num, by simp [METS, mkRow_name],
      kpm_pos (by norm_num) h0w, ?_, ?_, ?_⟩ <;>
      rw [mkRow_finite (l * 7700) w (parsedDays inp) _ 3.5
        (by norm_num) h0w hdp]
  · refine ⟨7.0, by norm_num, by simp [METS, mkRow_name],
      kpm_pos (by norm_num) h0w, ?_, ?_, ?_⟩ <;>
      rw [mkRow_finite (l * 7700) w (parsedDays inp) _ 7.0
        (by norm_num) h0w hdp]
  · refine ⟨8.0, by norm_num, by simp [METS, mkRow_name],
      kpm_pos (by norm_num) h0w, ?_, ?_, ?_⟩ <;>
      rw [mkRow_finite (l * 7700) w (parsedDays inp) _ 8.0
        (by norm_num) h0w hdp]
  · refine ⟨12.0, by norm_num, by simp [METS, mkRow_name],
      kpm_pos (by norm_num) h0w, ?_, ?_, ?_⟩ <;>
      rw [mkRow_finite (l * 7700) w (parsedDays inp) _ 12.0
        (by norm_num) h0w hdp]

/-- The worked end-to-end example of the spec: weight 70 kg, loss 5 kg,
height 175 cm, age 30, male, 30 days. -/
def sampleInput : RawInput :=
  { weight := some (PFloat.finite 70)
    loss := some (PFloat.finite 5)
    height := some (PFloat.finite 175)
    age := some 30
    days := some 30
    gender := Gender.male }

/-- C1 witness: the theorem instantiated at the spec's worked example. -/
theorem c1_result_formulas_witness :
    sampleInput.weight = some (PFloat.finite 70) ∧
    sampleInput.loss = some (PFloat.finite 5) ∧
    (0 : ℚ) < 70 ∧ (0 : ℚ) < 5 ∧
    (∃ r, calculate sampleInput = Except.ok r ∧
      r.totalKcal = PFloat.finite (5 * 7700) ∧
      r.targetDays = parsedDays sampleInput ∧ 0 < r.targetDays ∧
      ∀ row ∈ r.rows, ∃ met : ℚ, 0 < met ∧
        (row.name, PFloat.finite met) ∈ METS ∧
        0 < met * 3.5 * 70 / 200 ∧
        row.minutesNeeded =
          PFloat.finite (5 * 7700 / (met * 3.5 * 70 / 200)) ∧
        row.hoursTotal =
          PFloat.finite (5 * 7700 / (met * 3.5 * 70 / 200) / 60) ∧
        row.dailyAverageMinutes =
          PFloat.finite (5 * 7700 / (met * 3.5 * 70 / 200) /
            (parsedDays sampleInput : ℚ))) :=
  ⟨rfl, rfl, by norm_num, by norm_num,
    c1_result_formulas sampleInput 70 5 rfl rfl (by norm_num) (by norm_num)⟩

/-- C2: whenever the weight or the loss field fails to parse, or parses to
a value ≤ 0, `calculate` stops with a distinguishable invalid-input
condition carrying a non-empty human-readable message, returns no result,
and leaves the previously displayed table and note unchanged. -/
theorem c2_invalid_input_no_result (st : DisplayState) (inp : RawInput)
    (h : inp.weight = none ∨ inp.loss = none ∨
      (∃ q : ℚ, q ≤ 0 ∧ inp.weight = some (PFloat.finite q)) ∨
      (∃ q : ℚ, q ≤ 0 ∧ inp.loss = some (PFloat.finite q))) :
    ∃ msg : String, calculate inp = Except.error msg ∧ msg ≠ "" ∧
      applyCalculate st inp = st := by
  suffices hs : ∃ msg : String, calculate inp = Except.error msg ∧ msg ≠ "" by
    obtain ⟨msg, hm, hne⟩ := hs
    exact ⟨msg, hm, hne, by simp [applyCalculate, hm]⟩
  rcases h with hw0 | hl0 | ⟨q, hq, hw0⟩ | ⟨q, hq, hl0⟩
  · refine ⟨("請輸入有效的體重與想要減重公斤數。"), ?_, by decide⟩
    unfold calculate
    rw [hw0]
  · refine ⟨("請輸入有效的體重與想要減重公斤數。"), ?_, by decide⟩
    unfold calculate
    rw [hl0]
    cases inp.weight <;> rfl
  · cases hl' : inp.loss with
    | none =>
      refine ⟨("請輸入有效的體重與想要減重公斤數。"), ?_, by decide⟩
      unfold calculate
      rw [hw0, hl']
    | some x =>
      refine ⟨("體重與減重公斤數必須大於 0。"), ?_, by decide⟩
      unfold calculate
      rw [hw0, hl']
      simp [hq]
  · cases hw' : inp.weight with
    | none =>
      refine ⟨("請輸入有效的體重與想要減重公斤數。"), ?_, by decide⟩
      unfold calculate
      rw [hw', hl0]
    | some x =>
      refine ⟨("體重與減重公斤數必須大於 0。"), ?_, by decide⟩
      unfold calculate
      rw [hw', hl0]
      simp [hq]

/-- An input whose weight text does not parse, with a valid loss goal. -/
def badWeightInput : RawInput :=
  { weight := none
    loss := some (PFloat.finite 5)
    height := none
    age := none
    days := none
    gender := Gender.male }

/-- A display state carrying a previously rendered result. -/
def someDisplay : DisplayState :=
  { tableRows := [{ name := ("散步")
                    minutesNeeded := PFloat.finite 1
                    hoursTotal := PFloat.finite 1
                    dailyAverageMinutes := PFloat.finite 1
                    waterMl := 1 }]
    noteSummary := none }

/-- C2 witness: the theorem instantiated at an unparseable weight field and
a non-empty display state. -/
theorem c2_invalid_input_no_result_witness :
    (badWeightInput.weight = none ∨ badWeightInput.loss = none ∨
      (∃ q : ℚ, q ≤ 0 ∧ badWeightInput.weight = some (PFloat.finite q)) ∨
      (∃ q : ℚ, q ≤ 0 ∧ badWeightInput.loss = some (PFloat.finite q))) ∧
    (∃ msg : String, calculate badWeightInput = Except.error msg ∧
      msg ≠ "" ∧ applyCalculate someDisplay badWeightInput = someDisplay) :=
  ⟨Or.inl rfl,
    c2_invalid_input_no_result someDisplay badWeightInput (Or.inl rfl)⟩

theorem map_mkRow_eq (t w : ℚ) (days : ℤ) (h0w : 0 < w) (hd : 0 < days) :
    METS.map (mkRow (PFloat.finite t) (PFloat.finite w) days) =
      [{ name := ("散步")
         minutesNeeded := PFloat.finite (t / (3.5 * 3.5 * w / 200))
         hoursTotal := PFloat.finite (t / (3.5 * 3.5 * w / 200) / 60)
         dailyAverageMinutes :=
           PFloat.finite (t / (3.5 * 3.5 * w / 200) / (days : ℚ))
         waterMl := rndHalfEven t },
       { name := ("慢跑")
         minutesNeeded := PFloat.finite (t / (7.0 * 3.5 * w / 200))
         hoursTotal := PFloat.finite (t / (7.0 * 3.5 * w / 200) / 60)
         dailyAverageMinutes :=
           PFloat.finite (t / (7.0 * 3.5 * w / 200) / (days : ℚ))
         waterMl := rndHalfEven t },
       { name := ("游泳")
         minutesNeeded := PFloat.finite (t / (8.0 * 3.5 * w / 200))
         hoursTotal := PFloat.finite (t / (8.0 * 3.5 * w / 200) / 60)
         dailyAverageMinutes :=
           PFloat.finite (t / (8.0 * 3.5 * w / 200) / (days : ℚ))
         waterMl := rndHalfEven t },
       { name := ("跳繩")
         minutesNeeded := PFloat.finite (t / (12.0 * 3.5 * w / 200))
         hoursTotal := PFloat.finite (t / (12.0 * 3.5 * w / 200) / 60)
         dailyAverageMinutes :=
           PFloat.finite (t / (12.0 * 3.5 * w / 200) / (days : ℚ))
         waterMl := rndHalfEven t }] := by
  simp only [METS, List.map_cons, List.map_nil]
  rw [mkRow_finite t w days _ 3.5 (by norm_num) h0w hd,
    mkRow_finite t w days _ 7.0 (by norm_num) h0w hd,
    mkRow_finite t w days _ 8.0 (by norm_num) h0w hd,
    mkRow_finite t w days _ 12.0 (by norm_num) h0w hd]

/-- C3: for every valid input, the hydration figure is
round(weightLossGoalKg * 7700); the right-hand side mentions only the loss
goal, so the figure is independent of weight, height, age, gender and
days, and the same value appears in every table row and in the summary
line. -/
theorem c3_hydration_uniform (inp : RawInput) (w l : ℚ)
    (hw : inp.weight = some (PFloat.finite w))
    (hl : inp.loss = some (PFloat.finite l))
    (h0w : 0 < w) (h0l : 0 < l) :
    ∃ r, calculate inp = Except.ok r ∧
      r.hydrationMl = rndHalfEven (l * 7700) ∧
      (summaryOf r).hydrationMl = rndHalfEven (l * 7700) ∧
      ∀ row ∈ r.rows, row.waterMl = rndHalfEven (l * 7700) := by
  refine ⟨_, calculate_valid inp w l hw hl h0w h0l, rfl, rfl, ?_⟩
  intro row hrow
  rw [map_mkRow_eq (l * 7700) w (parsedDays inp) h0w (parsedDays_pos inp)]
    at hrow
  simp only [List.mem_cons, List.not_mem_nil, or_false] at hrow
  rcases hrow with h | h | h | h <;> subst h <;> rfl

/-- C3 witness: the theorem instantiated at the spec's worked example. -/
theorem c3_hydration_uniform_witness :
    sampleInput.weight = some (PFloat.finite 70) ∧
    sampleInput.loss = some (PFloat.finite 5) ∧
    (0 : ℚ) < 70 ∧ (0 : ℚ) < 5 ∧
    (∃ r, calculate sampleInput = Except.ok r ∧
      r.hydrationMl = rndHalfEven (5 * 7700) ∧
      (summaryOf r).hydrationMl = rndHalfEven (5 * 7700) ∧
      ∀ row ∈ r.rows, row.waterMl = rndHalfEven (5 * 7700)) :=
  ⟨rfl, rfl, by norm_num, by norm_num,
    c3_hydration_uniform sampleInput 70 5 rfl rfl (by norm_num) (by norm_num)⟩

/-- C4: the BMR reported by `calculate` is the Mifflin-St Jeor value of the
selected gender: +5 offset for male, -161 for female, and no offset term
for other. -/
theorem c4_bmr_mifflin (inp : RawInput) (w l h : ℚ) (a : ℤ)
    (hw : inp.weight = some (PFloat.finite w))
    (hl : inp.loss = some (PFloat.finite l))
    (hh : parsedHeight inp = PFloat.finite h)
    (ha : parsedAge inp = a)
    (h0w : 0 < w) (h0l : 0 < l) :
    ∃ r, calculate inp = Except.ok r ∧
      (inp.gender = Gender.male →
        r.bmr = PFloat.finite (10 * w + 6.25 * h - 5 * (a : ℚ) + 5)) ∧
      (inp.gender = Gender.female →
        r.bmr = PFloat.finite (10 * w + 6.25 * h - 5 * (a : ℚ) - 161)) ∧
      (inp.gender = Gender.other →
        r.bmr = PFloat.finite (10 * w + 6.25 * h - 5 * (a : ℚ))) := by
  refine ⟨_, calculate_valid inp w l hw hl h0w h0l, ?_, ?_, ?_⟩ <;>
    intro hg <;>
    simp only [hg, hh, ha, bmrFor, PFloat.ofInt, PFloat.finite_mul,
      PFloat.finite_add, PFloat.finite_sub] <;>
    norm_num

/-- C4 witness: the theorem instantiated at the spec's worked example,
whose BMR is 10*70 + 6.25*175 - 5*30 + 5 = 1701.25. -/
theorem c4_bmr_mifflin_witness :
    sampleInput.weight = some (PFloat.finite 70) ∧
    sampleInput.loss = some (PFloat.finite 5) ∧
    parsedHeight sampleInput = PFloat.finite 175 ∧
    parsedAge sampleInput = 30 ∧
    (0 : ℚ) < 70 ∧ (0 : ℚ) < 5 ∧
    (∃ r, calculate sampleInput = Except.ok r ∧
      (sampleInput.gender = Gender.male →
        r.bmr = PFloat.finite (10 * 70 + 6.25 * 175 - 5 * ((30 : ℤ) : ℚ) + 5)) ∧
      (sampleInput.gender = Gender.female →
        r.bmr = PFloat.finite (10 * 70 + 6.25 * 175 - 5 * ((30 : ℤ) : ℚ) - 161)) ∧
      (sampleInput.gender = Gender.other →
        r.bmr = PFloat.finite (10 * 70 + 6.25 * 175 - 5 * ((30 : ℤ) : ℚ)))) :=
  ⟨rfl, rfl, rfl, rfl, by norm_num, by norm_num,
    c4_bmr_mifflin sampleInput 70 5 175 30 rfl rfl rfl rfl
      (by norm_num) (by norm_num)⟩

/-- C5: for positive weight and positive MET, the per-minute energy cost is
met * 3.5 * weight / 200 and strictly positive, so for every catalog entry
the infinity branch of the guard is not taken: every row's minutesNeeded
is a finite, strictly positive value (in particular not the infinity
sentinel). -/
theorem c5_minutes_finite_positive (inp : RawInput) (w l met : ℚ)
    (name : String)
    (hw : inp.weight = some (PFloat.finite w))
    (hl : inp.loss = some (PFloat.finite l))
    (h0w : 0 < w) (h0l : 0 < l)
    (hmem : (name, PFloat.finite met) ∈ METS) :
    0 < met ∧
    kcal_per_minute (PFloat.finite met) (PFloat.finite w) =
      PFloat.finite (met * 3.5 * w / 200) ∧
    0 < met * 3.5 * w / 200 ∧
    ∃ r, calculate inp = Except.ok r ∧
      ∀ row ∈ r.rows, ∃ m : ℚ, 0 < m ∧
        row.minutesNeeded = PFloat.finite m ∧
        row.minutesNeeded ≠ PFloat.inf := by
  have hmet : 0 < met := by
    simp only [METS, List.mem_cons, List.not_mem_nil, or_false,
      Prod.mk.injEq, PFloat.finite.injEq] at hmem
    rcases hmem with ⟨-, h⟩ | ⟨-, h⟩ | ⟨-, h⟩ | ⟨-, h⟩ <;> subst h <;>
      norm_num
  refine ⟨hmet, kcal_per_minute_finite met w, kpm_pos hmet h0w, _,
    calculate_valid inp w l hw hl h0w h0l, ?_⟩
  intro row hrow
  rw [map_mkRow_eq (l * 7700) w (parsedDays inp) h0w (parsedDays_pos inp)]
    at hrow
  simp only [List.mem_cons, List.not_mem_nil, or_false] at hrow
  have hl7 : 0 < l * 7700 := by nlinarith
  rcases hrow with h | h | h | h <;> subst h <;>
    exact ⟨_, div_pos hl7 (kpm_pos (by norm_num) h0w), rfl, by simp⟩

/-- C5 witness: the theorem instantiated at the worked example and the
walking entry of the catalog. -/
theorem c5_minutes_finite_positive_witness :
    sampleInput.weight = some (PFloat.finite 70) ∧
    sampleInput.loss = some (PFloat.finite 5) ∧
    (0 : ℚ) < 70 ∧ (0 : ℚ) < 5 ∧
    (("散步"), PFloat.finite 3.5) ∈ METS ∧
    ((0 : ℚ) < 3.5 ∧
      kcal_per_minute (PFloat.finite 3.5) (PFloat.finite 70) =
        PFloat.finite (3.5 * 3.5 * 70 / 200) ∧
      (0 : ℚ) < 3.5 * 3.5 * 70 / 200 ∧
      ∃ r, calculate sampleInput = Except.ok r ∧
        ∀ row ∈ r.rows, ∃ m : ℚ, 0 < m ∧
          row.minutesNeeded = PFloat.finite m ∧
          row.minutesNeeded ≠ PFloat.inf) :=
  ⟨rfl, rfl, by norm_num, by norm_num, by simp [METS],
    c5_minutes_finite_positive sampleInput 70 5 3.5 ("散步") rfl rfl
      (by norm_num) (by norm_num) (by simp [METS])⟩

/-- C6: two valid inputs that differ only in the days field agree on the
total kcal target, the hydration figure, the BMR, and, row by row, on the
activity name, minutesNeeded, hoursTotal and per-row hydration. -/
theorem c6_days_only_affects_daily_values (inp : RawInput) (w l : ℚ)
    (d' : Option ℤ)
    (hw : inp.weight = some (PFloat.finite w))
    (hl : inp.loss = some (PFloat.finite l))
    (h0w : 0 < w) (h0l : 0 < l) :
    ∃ r r', calculate inp = Except.ok r ∧
      calculate { inp with days := d' } = Except.ok r' ∧
      r.totalKcal = r'.totalKcal ∧
      r.hydrationMl = r'.hydrationMl ∧
      r.bmr = r'.bmr ∧
      r.rows.map (fun row =>
        (row.name, row.minutesNeeded, row.hoursTotal, row.waterMl)) =
      r'.rows.map (fun row =>
        (row.name, row.minutesNeeded, row.hoursTotal, row.waterMl)) := by
  have h2w : ({ inp with days := d' } : RawInput).weight =
      some (PFloat.finite w) := hw
  have h2l : ({ inp with days := d' } : RawInput).loss =
      some (PFloat.finite l) := hl
  refine ⟨_, _, calculate_valid inp w l hw hl h0w h0l,
    calculate_valid _ w l h2w h2l h0w h0l, rfl, rfl, rfl, ?_⟩
  rw [map_mkRow_eq (l * 7700) w (parsedDays inp) h0w (parsedDays_pos inp),
    map_mkRow_eq (l * 7700) w (parsedDays { inp with days := d' }) h0w
      (parsedDays_pos _)]
  simp only [List.map_cons, List.map_nil]

/-- C6 witness: the theorem instantiated at the worked example against a
60-day variant. -/
theorem c6_days_only_affects_daily_values_witness :
    sampleInput.weight = some (PFloat.finite 70) ∧
    sampleInput.loss = some (PFloat.finite 5) ∧
    (0 : ℚ) < 70 ∧ (0 : ℚ) < 5 ∧
    (∃ r r', calculate sampleInput = Except.ok r ∧
      calculate { sampleInput with days := some 60 } = Except.ok r' ∧
      r.totalKcal = r'.totalKcal ∧
      r.hydrationMl = r'.hydrationMl ∧
      r.bmr = r'.bmr ∧
      r.rows.map (fun row =>
        (row.name, row.minutesNeeded, row.hoursTotal, row.waterMl)) =
      r'.rows.map (fun row =>
        (row.name, row.minutesNeeded, row.hoursTotal, row.waterMl))) :=
  ⟨rfl, rfl, by norm_num, by norm_num,
    c6_days_only_affects_daily_values sampleInput 70 5 (some 60) rfl rfl
      (by norm_num) (by norm_num)⟩

/-- C7: for every valid input, the daily deficit reported in the summary
line is totalKcalTarget / targetDays, with targetDays the days value after
default substitution. -/
theorem c7_daily_deficit (inp : RawInput) (w l : ℚ)
    (hw : inp.weight = some (PFloat.finite w))
    (hl : inp.loss = some (PFloat.finite l))
    (h0w : 0 < w) (h0l : 0 < l) :
    ∃ r, calculate inp = Except.ok r ∧
      r.totalKcal = PFloat.finite (l * 7700) ∧
      r.targetDays = parsedDays inp ∧
      r.dailyDeficit = PFloat.finite (l * 7700 / (parsedDays inp : ℚ)) ∧
      (summaryOf r).dailyDeficit =
        PFloat.finite (l * 7700 / (parsedDays inp : ℚ)) :=
  ⟨_, calculate_valid inp w l hw hl h0w h0l, rfl, rfl, rfl, rfl⟩

/-- C7 witness: the theorem instantiated at the worked example
(38500 kcal over 30 days). -/
theorem c7_daily_deficit_witness :
    sampleInput.weight = some (PFloat.finite 70) ∧
    sampleInput.loss = some (PFloat.finite 5) ∧
    (0 : ℚ) < 70 ∧ (0 : ℚ) < 5 ∧
    (∃ r, calculate sampleInput = Except.ok r ∧
      r.totalKcal = PFloat.finite (5 * 7700) ∧
      r.targetDays = parsedDays sampleInput ∧
      r.dailyDeficit =
        PFloat.finite (5 * 7700 / (parsedDays sampleInput : ℚ)) ∧
      (summaryOf r).dailyDeficit =
        PFloat.finite (5 * 7700 / (parsedDays sampleInput : ℚ))) :=
  ⟨rfl, rfl, by norm_num, by norm_num,
    c7_daily_deficit sampleInput 70 5 rfl rfl (by norm_num) (by norm_num)⟩

/-- C8: with the required fields untouched, an empty or unparseable height
field behaves exactly like an explicit 0, an empty or unparseable age
field like an explicit 0, and an empty, unparseable or non-positive days
field like an explicit 30 (the parsed values and the whole outcome of
`calculate` coincide). -/
theorem c8_optional_field_defaults (inp : RawInput) (d : ℤ) (hd : d ≤ 0) :
    parsedHeight { inp with height := none } = PFloat.finite 0 ∧
    parsedAge { inp with age := none } = 0 ∧
    parsedDays { inp with days := none } = 30 ∧
    parsedDays { inp with days := some d } = 30 ∧
    calculate { inp with height := none } =
      calculate { inp with height := some (PFloat.finite 0) } ∧
    calculate { inp with age := none } =
      calculate { inp with age := some 0 } ∧
    calculate { inp with days := none } =
      calculate { inp with days := some 30 } ∧
    calculate { inp with days := some d } =
      calculate { inp with days := some 30 } := by
  obtain ⟨ow, ol, oh, oa, od, g⟩ := inp
  refine ⟨rfl, rfl, rfl, by simp [parsedDays, hd], rfl, rfl, rfl, ?_⟩
  cases ow with
  | none => rfl
  | some wv =>
    cases ol with
    | none => rfl
    | some lv =>
      simp only [calculate, parsedDays, parsedHeight, parsedAge, hd,
        if_true, if_pos hd]
      norm_num

/-- C8 witness: the theorem instantiated at the worked example and the
non-positive days value -5. -/
theorem c8_optional_field_defaults_witness :
    (-5 : ℤ) ≤ 0 ∧
    (parsedHeight { sampleInput with height := none } = PFloat.finite 0 ∧
     parsedAge { sampleInput with age := none } = 0 ∧
     parsedDays { sampleInput with days := none } = 30 ∧
     parsedDays { sampleInput with days := some (-5) } = 30 ∧
     calculate { sampleInput with height := none } =
       calculate { sampleInput with height := some (PFloat.finite 0) } ∧
     calculate { sampleInput with age := none } =
       calculate { sampleInput with age := some 0 } ∧
     calculate { sampleInput with days := none } =
       calculate { sampleInput with days := some 30 } ∧
     calculate { sampleInput with days := some (-5) } =
       calculate { sampleInput with days := some 30 }) :=
  ⟨by norm_num,
    c8_optional_field_defaults sampleInput (-5) (by norm_num)⟩

/-- C9: the catalog is the fixed insertion-ordered list walking, jogging,
swimming, jump-rope with MET values 3.5, 7.0, 8.0, 12.0, and the output
rows appear exactly in that order (no re-sorting by any value). -/
theorem c9_catalog_order_preserved (inp : RawInput) (w l : ℚ)
    (hw : inp.weight = some (PFloat.finite w))
    (hl : inp.loss = some (PFloat.finite l))
    (h0w : 0 < w) (h0l : 0 < l) :
    METS = [(("散步"), PFloat.finite 3.5), (("慢跑"), PFloat.finite 7.0),
      (("游泳"), PFloat.finite 8.0), (("跳繩"), PFloat.finite 12.0)] ∧
    ∃ r, calculate inp = Except.ok r ∧
      r.rows.map (fun row => row.name) = METS.map Prod.fst ∧
      r.rows.map (fun row => row.name) =
        [("散步"), ("慢跑"), ("游泳"), ("跳繩")] := by
  refine ⟨rfl, _, calculate_valid inp w l hw hl h0w h0l, ?_, ?_⟩ <;>
  · rw [map_mkRow_eq (l * 7700) w (parsedDays inp) h0w (parsedDays_pos inp)]
    rfl

/-- C9 witness: the theorem instantiated at the worked example. -/
theorem c9_catalog_order_preserved_witness :
    sampleInput.weight = some (PFloat.finite 70) ∧
    sampleInput.loss = some (PFloat.finite 5) ∧
    (0 : ℚ) < 70 ∧ (0 : ℚ) < 5 ∧
    (METS = [(("散步"), PFloat.finite 3.5), (("慢跑"), PFloat.finite 7.0),
      (("游泳"), PFloat.finite 8.0), (("跳繩"), PFloat.finite 12.0)] ∧
    ∃ r, calculate sampleInput = Except.ok r ∧
      r.rows.map (fun row => row.name) = METS.map Prod.fst ∧
      r.rows.map (fun row => row.name) =
        [("散步"), ("慢跑"), ("游泳"), ("跳繩")]) :=
  ⟨rfl, rfl, by norm_num, by norm_num,
    c9_catalog_order_preserved sampleInput 70 5 rfl rfl
      (by norm_num) (by norm_num)⟩

theorem mkRow_nan (t m : ℚ) (days : ℤ) (hd : 0 < days) (name : String) :
    mkRow (PFloat.finite t) PFloat.nan days (name, PFloat.finite m) =
      { name := name
        minutesNeeded := PFloat.inf
        hoursTotal := PFloat.inf
        dailyAverageMinutes := PFloat.inf
        waterMl := rndHalfEven t } := by
  have hdq : (0 : ℚ) < (days : ℚ) := by exact_mod_cast hd
  unfold mkRow kcal_per_minute
  norm_num [PFloat.ofInt, hdq, ne_of_gt hdq, PFloat.pyRound,
    PFloat.div]

theorem map_mkRow_nan_eq (t : ℚ) (days : ℤ) (hd : 0 < days) :
    METS.map (mkRow (PFloat.finite t) PFloat.nan days) =
      [{ name := ("散步")
         minutesNeeded := PFloat.inf
         hoursTotal := PFloat.inf
         dailyAverageMinutes := PFloat.inf
         waterMl := rndHalfEven t },
       { name := ("慢跑")
         minutesNeeded := PFloat.inf
         hoursTotal := PFloat.inf
         dailyAverageMinutes := PFloat.inf
         waterMl := rndHalfEven t },
       { name := ("游泳")
         minutesNeeded := PFloat.inf
         hoursTotal := PFloat.inf
         dailyAverageMinutes := PFloat.inf
         waterMl := rndHalfEven t },
       { name := ("跳繩")
         minutesNeeded := PFloat.inf
         hoursTotal := PFloat.inf
         dailyAverageMinutes := PFloat.inf
         waterMl := rndHalfEven t }] := by
  simp only [METS, List.map_cons, List.map_nil]
  rw [mkRow_nan t 3.5 days hd, mkRow_nan t 7.0 days hd,
    mkRow_nan t 8.0 days hd, mkRow_nan t 12.0 days hd]

theorem calculate_nan_weight (inp : RawInput) (l : ℚ)
    (hw : inp.weight = some PFloat.nan)
    (hl : inp.loss = some (PFloat.finite l))
    (h0l : 0 < l) :
    calculate inp = Except.ok
      { totalKcal := PFloat.finite (l * 7700)
        bmr := bmrFor inp.gender PFloat.nan (parsedHeight inp)
          (parsedAge inp)
        dailyDeficit := PFloat.finite (l * 7700 / (parsedDays inp : ℚ))
        hydrationMl := rndHalfEven (l * 7700)
        rows := METS.map (mkRow (PFloat.finite (l * 7700)) PFloat.nan
          (parsedDays inp))
        gender := inp.gender
        targetDays := parsedDays inp } := by
  have hdp := parsedDays_pos inp
  have hdq : ((parsedDays inp : ℚ)) ≠ 0 := by
    exact_mod_cast Int.ne_of_gt hdp
  unfold calculate
  rw [hw, hl]
  simp [not_le.mpr h0l, hdp, PFloat.ofInt, hdq, PFloat.pyRound]
  norm_num

/-- C10: a NaN weight with a valid loss goal passes the validation check
(NaN is not ≤ 0), so `calculate` does not report invalid input; it
produces a full result in which every activity's minutesNeeded,
hoursTotal and dailyAverageMinutes are the positive-infinity sentinel,
via the non-finite guard. -/
theorem c10_nan_weight_full_result (inp : RawInput) (l : ℚ)
    (hw : inp.weight = some PFloat.nan)
    (hl : inp.loss = some (PFloat.finite l))
    (h0l : 0 < l) :
    (PFloat.nan).ble (PFloat.finite 0) = false ∧
    ∃ r, calculate inp = Except.ok r ∧
      r.rows.length = METS.length ∧
      ∀ row ∈ r.rows,
        row.minutesNeeded = PFloat.inf ∧
        row.hoursTotal = PFloat.inf ∧
        row.dailyAverageMinutes = PFloat.inf := by
  have hdp := parsedDays_pos inp
  refine ⟨rfl, _, calculate_nan_weight inp l hw hl h0l, ?_, ?_⟩
  · simp [METS]
  · intro row hrow
    rw [map_mkRow_nan_eq (l * 7700) (parsedDays inp) hdp] at hrow
    simp only [List.mem_cons, List.not_mem_nil, or_false] at hrow
    rcases hrow with h | h | h | h <;> subst h <;> exact ⟨rfl, rfl, rfl⟩

/-- An input whose weight text parses to NaN (for example the text "nan"),
with a valid loss goal. -/
def nanWeightInput : RawInput :=
  { weight := some PFloat.nan
    loss := some (PFloat.finite 5)
    height := none
    age := none
    days := none
    gender := Gender.male }

/-- C10 witness: the theorem instantiated at a NaN weight and loss 5. -/
theorem c10_nan_weight_full_result_witness :
    nanWeightInput.weight = some PFloat.nan ∧
    nanWeightInput.loss = some (PFloat.finite 5) ∧
    (0 : ℚ) < 5 ∧
    ((PFloat.nan).ble (PFloat.finite 0) = false ∧
    ∃ r, calculate nanWeightInput = Except.ok r ∧
      r.rows.length = METS.length ∧
      ∀ row ∈ r.rows,
        row.minutesNeeded = PFloat.inf ∧
        row.hoursTotal = PFloat.inf ∧
        row.dailyAverageMinutes = PFloat.inf) :=
  ⟨rfl, rfl, by norm_num,
    c10_nan_weight_full_result nanWeightInput 5 rfl rfl (by norm_num)⟩
